import Mathlib

/-!
A shallow embedding of the live-event relay server (`src/server.js`) of the
TikTok-Chat-Reader repository, together with theorems settling the claims of
the specification against it.

Model conventions:
* JS objects used as string-keyed maps become functions `String → Option α`;
  an absent property is `none`.  JS arrays become `List`.
* `Date.now()` millisecond timestamps become `Int` parameters (`now`); the
  handler under scrutiny receives the current time as an argument.
* Raw upstream payloads are a record `RawData` holding every field any
  transformer of `server.js` reads; fields the upstream did not send are the
  record's defaults.
* The external `TikTokConnectionWrapper` collaborator (connectionWrapper.js,
  outside `src/`) is represented by the `Wrapper` value that
  `getOrCreateTiktokConnectionWrapper` constructs and by a `ConstructResult`
  parameter describing the outcome of `new TikTokConnectionWrapper` +
  `connect()` for the call under consideration.
-/

/-- `DELETE_EVENTS_AGE` (server.js line 14): events are kept for 30 minutes. -/
def DELETE_EVENTS_AGE : Int := 30 * 60 * 1000

/-- `eventTypesToStore` (server.js line 17). -/
def eventTypesToStore : List String :=
  ["liveIntro", "member", "roomUser", "chat", "gift", "like", "follow",
   "share", "emote", "envelope", "subscribe", "superFan", "streamEnd"]

/-- Raw upstream payload: a record with every field read by `server.js`
(lines 20-59).  Fields absent from a given payload are the defaults. -/
structure RawData where
  userId : String := ""
  uniqueId : String := ""
  nickname : String := ""
  profilePictureUrl : String := ""
  giftId : Int := 0
  giftName : String := ""
  giftType : Int := 0
  giftPictureUrl : String := ""
  repeatEnd : Bool := false
  diamondCount : Int := 0
  repeatCount : Int := 0
  comment : String := ""
  contentLanguage : String := ""
  likeCount : Int := 0
  totalLikeCount : Int := 0
  viewerCount : Int := 0
  memberCount : Int := 0
  shareCount : Int := 0
deriving DecidableEq, Repr

/-- The user projection `userBaseData` (server.js lines 20-25). -/
structure UserData where
  userId : String
  uniqueId : String
  nickname : String
  profilePictureUrl : String
deriving DecidableEq, Repr

def userBaseData (d : RawData) : UserData :=
  ⟨d.userId, d.uniqueId, d.nickname, d.profilePictureUrl⟩

/-- `isPendingStreak` (server.js lines 27-29):
`data.giftType === 1 && !data.repeatEnd`. -/
def isPendingStreak (d : RawData) : Bool :=
  d.giftType == 1 && !d.repeatEnd

/-- The kind-specific `data` member of a normalized event envelope, one
constructor per transformer of `eventTypeToTransformer` (server.js
lines 30-82); `raw` covers `streamEnd` and the fallback branch of the
content-event listener (server.js line 135). -/
inductive EventData where
  | roomUser (viewerCount : Int)
  | like (likeCount totalLikeCount : Int) (user : UserData)
  | chat (comment contentLanguage : String) (user : UserData)
  | gift (giftId : Int) (giftName : String) (giftType : Int)
      (giftPictureUrl : String) (diamondCount : Int) (user : UserData)
  | member (memberCount : Int) (user : UserData)
  | share (shareCount : Int) (user : UserData)
  | userOnly (user : UserData)
  | raw (d : RawData)
deriving DecidableEq, Repr

/-- A normalized event envelope `{ type, timestamp, data }`. -/
structure Event where
  type : String
  timestamp : Int
  data : EventData
deriving DecidableEq, Repr

/-- `eventTypeToTransformer` (server.js lines 30-82): a partial map from the
event kind to its transformer.  The `follow`/`subscribe`/`superFan` entries
come from the mapped spread on lines 80-81.  The transformer receives the
current time (the JS code calls `Date.now()` inside each transformer). -/
def eventTypeToTransformer (eventType : String) : Option (RawData → Int → Event) :=
  if eventType = "roomUser" then
    some (fun d now => ⟨"roomUser", now, .roomUser d.viewerCount⟩)
  else if eventType = "like" then
    some (fun d now => ⟨"like", now, .like d.likeCount d.totalLikeCount (userBaseData d)⟩)
  else if eventType = "chat" then
    some (fun d now => ⟨"chat", now, .chat d.comment d.contentLanguage (userBaseData d)⟩)
  else if eventType = "gift" then
    some (fun d now => ⟨"gift", now,
      .gift d.giftId d.giftName d.giftType d.giftPictureUrl
        (if !(isPendingStreak d) && decide (0 < d.diamondCount)
          then d.diamondCount * d.repeatCount else 0)
        (userBaseData d)⟩)
  else if eventType = "member" then
    some (fun d now => ⟨"member", now, .member d.memberCount (userBaseData d)⟩)
  else if eventType = "share" then
    some (fun d now => ⟨"share", now, .share d.shareCount (userBaseData d)⟩)
  else if eventType = "streamEnd" then
    some (fun d now => ⟨"streamEnd", now, .raw d⟩)
  else if eventType = "follow" || eventType = "subscribe" || eventType = "superFan" then
    some (fun d now => ⟨eventType, now, .userOnly (userBaseData d)⟩)
  else none

/-- The envelope appended by the content-event listener (server.js
lines 131-136): the transformer's output when one exists, else the fallback
`{ type: eventType, data, timestamp }`. -/
def transformEvent (eventType : String) (data : RawData) (now : Int) : Event :=
  match eventTypeToTransformer eventType with
  | some f => f data now
  | none => ⟨eventType, now, .raw data⟩

/-- Projection of the `diamondCount` field out of a gift envelope's data. -/
def EventData.giftDiamondCount : EventData → Option Int
  | .gift _ _ _ _ dc _ => some dc
  | _ => none

/-- **C2.** For every raw gift payload, the normalized gift envelope's
`diamondCount` is `0` when the payload is a non-terminal streak frame
(`giftType = 1` and `repeatEnd` false) or the base diamond value is at most
`0`, and is the base diamond value times `repeatCount` otherwise; in
particular the three reference payloads evaluate to `0`, `15` and `15`. -/
theorem gift_diamond_computation :
    (∀ (d : RawData) (now : Int),
      (transformEvent "gift" d now).data.giftDiamondCount =
        some (if (d.giftType = 1 ∧ d.repeatEnd = false) ∨ d.diamondCount ≤ 0
          then 0 else d.diamondCount * d.repeatCount))
    ∧ (transformEvent "gift"
        { giftType := 1, repeatEnd := false, diamondCount := 5, repeatCount := 3 }
        0).data.giftDiamondCount = some 0
    ∧ (transformEvent "gift"
        { giftType := 1, repeatEnd := true, diamondCount := 5, repeatCount := 3 }
        0).data.giftDiamondCount = some 15
    ∧ (transformEvent "gift"
        { giftType := 0, repeatEnd := false, diamondCount := 5, repeatCount := 3 }
        0).data.giftDiamondCount = some 15 := by
  refine ⟨?_, by decide, by decide, by decide⟩
  intro d now
  simp only [transformEvent, eventTypeToTransformer, isPendingStreak,
    EventData.giftDiamondCount, if_true, reduceIte]
  by_cases h1 : d.giftType = 1 <;> by_cases h2 : d.repeatEnd = true <;>
    by_cases h3 : 0 < d.diamondCount <;>
      simp_all [EventData.giftDiamondCount] <;> omega

/-- Pointwise update of a map modelled as a function into `Option`. -/
def mapSet {κ α : Type} [DecidableEq κ] (m : κ → Option α) (k : κ) (v : Option α) :
    κ → Option α :=
  fun x => if x = k then v else m x

/-- Connection options.  `requestOptions` / `websocketOptions` are the two
caller-supplied transport override fields deleted by `setStreamerId`
(server.js lines 154-155); `sessionId` is the credential; `extra` models any
other caller-supplied fields, which survive sanitization untouched. -/
structure Options where
  requestOptions : Option String := none
  websocketOptions : Option String := none
  sessionId : Option String := none
  enableExtendedGiftInfo : Bool := false
  extra : List (String × String) := []
deriving DecidableEq, Repr

/-- The fixed options object built by the pull endpoint
(server.js lines 222-224): `{ enableExtendedGiftInfo: true }`. -/
def pullOptions : Options := { enableExtendedGiftInfo := true }

/-- Server environment: `process.env.SESSIONID` and
`process.env.ENABLE_RATE_LIMIT` as read by `setStreamerId`
(server.js lines 161, 167). -/
structure Env where
  sessionId : Option String := none
  enableRateLimit : Bool := false

/-- The upstream handle: what `new TikTokConnectionWrapper(streamerId,
options, true)` (server.js line 111) produces.  `handleId` distinguishes
distinct constructions (each `new` yields a fresh object). -/
structure Wrapper where
  streamerId : String
  options : Options
  handleId : Nat
deriving DecidableEq, Repr

/-- Outcome of one `new TikTokConnectionWrapper(...)` + `.connect()` attempt
(server.js lines 111-112).  `thrown err` models a synchronous exception
caught on line 113.  `ok asyncConnectFails` models both calls returning
normally; the flag records whether the asynchronous connect later fails.
`server.js` observes an asynchronous failure only through the wrapper's
`disconnected` event (line 123), whose handler merely emits to the sockets:
no code in `server.js` ever deletes an entry of
`streamerIdToTikTokConnectionWrapperMap` (its only write is line 119), so
the flag cannot influence the cache. -/
inductive ConstructResult where
  | thrown (err : String)
  | ok (asyncConnectFails : Bool)
deriving DecidableEq, Repr

/-- The server's mutable state (server.js lines 85-99):
`streamEvents`, `requesterIdToLastRequestTimestamp`,
`streamerIdToSocketsMap`, `socketTostreamerIdMap`,
`streamerIdToTikTokConnectionWrapperMap`.  Sockets are identified by `Nat`.

`socketTostreamerIdMap` is a plain JS object indexed by the socket *object*
(lines 98, 185, 200, 207); every socket coerces to the same property key
when used as an object index, so at runtime the object holds one shared
slot, modelled as a single `Option String`.

`nextHandleId` is the model's supply of fresh handle identities. -/
structure RelayState where
  streamEvents : String → Option (List Event)
  requesterCursor : String → Option Int
  socketsMap : String → Option (List Nat)
  socketStreamer : Option String
  wrapperMap : String → Option Wrapper
  nextHandleId : Nat

/-- The state at server start: every map empty. -/
def initialRelayState : RelayState :=
  { streamEvents := fun _ => none
    requesterCursor := fun _ => none
    socketsMap := fun _ => none
    socketStreamer := none
    wrapperMap := fun _ => none
    nextHandleId := 0 }

/-- `getOrCreateTiktokConnectionWrapper` (server.js lines 103-143).
Returns the `[tiktokConnectionWrapper, errStr]` pair together with the
updated state.  On a cache hit the stored wrapper is returned and nothing
changes.  On a miss, a synchronous exception yields `[undefined, errStr]`
with nothing cached; otherwise the freshly constructed wrapper is stored
(line 119) and returned — unconditionally of whether its asynchronous
connect will later fail.  Listener registration (lines 122-140) installs
behaviour modelled separately by `handleUpstreamEvent`. -/
def getOrCreateTiktokConnectionWrapper (s : RelayState) (streamerId : String)
    (options : Options) (outcome : ConstructResult) :
    (Option Wrapper × Option String) × RelayState :=
  match s.wrapperMap streamerId with
  | some w => ((some w, none), s)
  | none =>
    match outcome with
    | .thrown err => ((none, some err), s)
    | .ok _ =>
      let w : Wrapper := ⟨streamerId, options, s.nextHandleId⟩
      ((some w, none),
        { s with wrapperMap := mapSet s.wrapperMap streamerId (some w)
                 nextHandleId := s.nextHandleId + 1 })

/-- **C1.** Handle acquisition creates at most one upstream connection per
streamer identifier: when no handle is cached, a successful call constructs
a fresh handle and caches it, and any later call for the same identifier —
whatever options and construction outcome it carries — returns exactly the
cached handle and leaves the state untouched. -/
theorem upstream_handle_cached_once (s : RelayState) (id : String)
    (o₁ o₂ : Options) (b : Bool) (out₂ : ConstructResult)
    (h : s.wrapperMap id = none) :
    (getOrCreateTiktokConnectionWrapper s id o₁ (.ok b)).1 =
      (some ⟨id, o₁, s.nextHandleId⟩, none)
    ∧ (getOrCreateTiktokConnectionWrapper s id o₁ (.ok b)).2.wrapperMap id =
      some ⟨id, o₁, s.nextHandleId⟩
    ∧ getOrCreateTiktokConnectionWrapper
        (getOrCreateTiktokConnectionWrapper s id o₁ (.ok b)).2 id o₂ out₂ =
      ((some ⟨id, o₁, s.nextHandleId⟩, none),
        (getOrCreateTiktokConnectionWrapper s id o₁ (.ok b)).2) := by
  simp [getOrCreateTiktokConnectionWrapper, h, mapSet]

/-- Witness for `upstream_handle_cached_once` at the initial state. -/
theorem upstream_handle_cached_once_witness :
    initialRelayState.wrapperMap "tiktoker" = none
    ∧ ((getOrCreateTiktokConnectionWrapper initialRelayState "tiktoker"
          pullOptions (.ok false)).1 =
        (some ⟨"tiktoker", pullOptions, 0⟩, none)
      ∧ (getOrCreateTiktokConnectionWrapper initialRelayState "tiktoker"
          pullOptions (.ok false)).2.wrapperMap "tiktoker" =
        some ⟨"tiktoker", pullOptions, 0⟩
      ∧ getOrCreateTiktokConnectionWrapper
          (getOrCreateTiktokConnectionWrapper initialRelayState "tiktoker"
            pullOptions (.ok false)).2 "tiktoker" { } (.thrown "offline") =
        ((some ⟨"tiktoker", pullOptions, 0⟩, none),
          (getOrCreateTiktokConnectionWrapper initialRelayState "tiktoker"
            pullOptions (.ok false)).2)) :=
  ⟨rfl, upstream_handle_cached_once initialRelayState "tiktoker"
    pullOptions { } false (.thrown "offline") rfl⟩

/-- `createInitialEventContainer` (server.js line 101): `{ events: [] }`. -/
def createInitialEventContainer : List Event := []

/-- The content-event listener body registered by
`getOrCreateTiktokConnectionWrapper` (server.js lines 127-139), as fired for
one upstream event of kind `eventType` carrying `data` at time `now`.
It lazily creates the streamer's event container (lines 128-130), appends
the transformed envelope — or the fallback envelope when no transformer is
registered for the kind — (lines 131-136), and then emits
`socket.emit(eventType, data)`, i.e. the *raw* payload, to every socket
currently in the streamer's socket list (line 138, where
`streamerIdToSocketsMap[streamerId]?.` skips emission when no list exists).
Returns the updated state and the list of `(socket, messageName, payload)`
emissions. -/
def handleUpstreamEvent (s : RelayState) (streamerId eventType : String)
    (data : RawData) (now : Int) : RelayState × List (Nat × String × RawData) :=
  let sInit :=
    if (s.streamEvents streamerId).isNone then
      { s with streamEvents :=
          mapSet s.streamEvents streamerId (some createInitialEventContainer) }
    else s
  let events := (sInit.streamEvents streamerId).getD []
  let s1 :=
    { sInit with
        streamEvents := mapSet sInit.streamEvents streamerId
          (some (events ++ [transformEvent eventType data now])) }
  (s1, ((sInit.socketsMap streamerId).getD []).map
    (fun sock => (sock, eventType, data)))

/-- Characterization of one content-event firing: the envelope produced by
`transformEvent` is appended to the streamer's buffer, and the raw payload
is emitted, under the event kind, to every socket in the streamer's list
(all other state components are untouched). -/
theorem handleUpstreamEvent_spec (s : RelayState) (streamerId eventType : String)
    (data : RawData) (now : Int) :
    (handleUpstreamEvent s streamerId eventType data now).1.streamEvents streamerId =
      some (((s.streamEvents streamerId).getD []) ++ [transformEvent eventType data now])
    ∧ (handleUpstreamEvent s streamerId eventType data now).1.requesterCursor =
      s.requesterCursor
    ∧ (handleUpstreamEvent s streamerId eventType data now).1.socketsMap = s.socketsMap
    ∧ (handleUpstreamEvent s streamerId eventType data now).1.wrapperMap = s.wrapperMap
    ∧ (∀ other : String, other ≠ streamerId →
        (handleUpstreamEvent s streamerId eventType data now).1.streamEvents other =
          s.streamEvents other)
    ∧ (handleUpstreamEvent s streamerId eventType data now).2 =
      ((s.socketsMap streamerId).getD []).map (fun sock => (sock, eventType, data)) := by
  cases h : s.streamEvents streamerId <;>
    simp [handleUpstreamEvent, h, mapSet, createInitialEventContainer] <;>
      intro other hother <;> simp [hother]

/-- The state used by the C6 counterexample: socket `7` is joined to
streamer `"s"`, nothing is buffered yet. -/
def broadcastCounterexampleState : RelayState :=
  { initialRelayState with
      socketsMap := mapSet initialRelayState.socketsMap "s" (some [7]) }

/-- The raw gift payload used by the C6 counterexample: a non-terminal
streak frame worth 5 diamonds per repeat. -/
def broadcastCounterexampleGift : RawData :=
  { giftType := 1, repeatEnd := false, diamondCount := 5, repeatCount := 3 }

/-- **C6, counterexample.** The payload broadcast to a push subscriber is
*not* the normalized record appended to the buffer: for a gift firing on a
streamer with one joined subscriber, the appended envelope carries
`diamondCount = 0` while the payload delivered to the subscriber is the raw
payload, whose `diamondCount` field is `5`. -/
theorem broadcast_raw_payload_counterexample :
    (handleUpstreamEvent broadcastCounterexampleState "s" "gift"
        broadcastCounterexampleGift 1000).2 =
      [(7, "gift", broadcastCounterexampleGift)]
    ∧ (handleUpstreamEvent broadcastCounterexampleState "s" "gift"
        broadcastCounterexampleGift 1000).1.streamEvents "s" =
      some [⟨"gift", 1000,
        .gift 0 "" 1 "" 0 (userBaseData broadcastCounterexampleGift)⟩]
    ∧ ((⟨"gift", 1000,
        .gift 0 "" 1 "" 0 (userBaseData broadcastCounterexampleGift)⟩ : Event)).data.giftDiamondCount
        = some 0
    ∧ broadcastCounterexampleGift.diamondCount = 5
    ∧ (0 : Int) ≠ 5 := by
  refine ⟨?_, ?_, by decide, by decide, by decide⟩ <;>
    simp [handleUpstreamEvent, broadcastCounterexampleState, initialRelayState,
      broadcastCounterexampleGift, mapSet, createInitialEventContainer,
      transformEvent, eventTypeToTransformer, isPendingStreak, userBaseData]

/-- **C6, amended.** For every content-event kind in the stored catalogue,
each upstream firing appends the normalized envelope produced by the
transformer (or the fallback envelope for kinds without a transformer) to
the streamer's event buffer, and broadcasts the *raw upstream payload* —
not the normalized envelope — under the event kind to every push subscriber
currently joined to that streamer. -/
theorem firing_appends_envelope_broadcasts_raw (s : RelayState)
    (streamerId eventType : String) (data : RawData) (now : Int)
    (hty : eventType ∈ eventTypesToStore) :
    (handleUpstreamEvent s streamerId eventType data now).1.streamEvents streamerId =
      some (((s.streamEvents streamerId).getD []) ++ [transformEvent eventType data now])
    ∧ (handleUpstreamEvent s streamerId eventType data now).2 =
      ((s.socketsMap streamerId).getD []).map (fun sock => (sock, eventType, data)) := by
  exact ⟨(handleUpstreamEvent_spec s streamerId eventType data now).1,
    (handleUpstreamEvent_spec s streamerId eventType data now).2.2.2.2.2⟩

/-- Witness for `firing_appends_envelope_broadcasts_raw`: a chat firing on
the C6 counterexample state. -/
theorem firing_appends_envelope_broadcasts_raw_witness :
    "chat" ∈ eventTypesToStore
    ∧ ((handleUpstreamEvent broadcastCounterexampleState "s" "chat"
          { comment := "hi" } 5).1.streamEvents "s" =
        some (((broadcastCounterexampleState.streamEvents "s").getD []) ++
          [transformEvent "chat" { comment := "hi" } 5])
      ∧ (handleUpstreamEvent broadcastCounterexampleState "s" "chat"
          { comment := "hi" } 5).2 =
        ((broadcastCounterexampleState.socketsMap "s").getD []).map
          (fun sock => (sock, "chat", ({ comment := "hi" } : RawData)))) :=
  ⟨by decide, firing_appends_envelope_broadcasts_raw broadcastCounterexampleState
    "s" "chat" { comment := "hi" } 5 (by decide)⟩

/-- Result of one `GET /events` request: either a 400 plain-text rejection or
the JSON body `{ events, message? }`. -/
inductive PollResult where
  | badRequest (body : String)
  | json (events : List (String × EventData)) (message : Option String)
deriving DecidableEq, Repr

/-- The registration message of the first poll (server.js line 237). -/
def registeredMessage : String := "New ID registered. No events yet."

/-- The `GET /events` handler (server.js lines 213-250).  `streamerId` and
`requesterId` are the query parameters (`none` when missing; JS treats the
empty string as missing too, via `!streamerId`).  `outcome` is the result of
the upstream construction attempt should a cache miss occur; `now` is
`Date.now()` during this request.  Mirrors the source order: validation,
get-or-create (with the fixed `{ enableExtendedGiftInfo: true }` options),
error surfacing, lazy container creation, first-poll registration, cursor
filtering, cursor advance, and finally the retention sweep of the buffer —
which happens *after* `newEvents` is computed (lines 241 and 245). -/
def pollEvents (s : RelayState) (streamerId requesterId : Option String)
    (outcome : ConstructResult) (now : Int) : PollResult × RelayState :=
  if (streamerId.getD "") = "" then
    (.badRequest "Missing streamerId parameter.", s)
  else if (requesterId.getD "") = "" then
    (.badRequest "Missing requesterId parameter.", s)
  else
    let sId := streamerId.getD ""
    let rId := requesterId.getD ""
    let res := getOrCreateTiktokConnectionWrapper s sId pullOptions outcome
    let s1 := res.2
    if (res.1.2.getD "") ≠ "" then
      (.json [] res.1.2, s1)
    else
      let s2 :=
        if (s1.streamEvents sId).isNone then
          { s1 with streamEvents :=
              mapSet s1.streamEvents sId (some createInitialEventContainer) }
        else s1
      if (s2.requesterCursor rId).getD 0 = 0 then
        (.json [] (some registeredMessage),
          { s2 with requesterCursor := mapSet s2.requesterCursor rId (some now) })
      else
        let last := (s2.requesterCursor rId).getD 0
        let events := (s2.streamEvents sId).getD []
        let newEvents := events.filter (fun e => decide (last < e.timestamp))
        let s3 :=
          { s2 with requesterCursor := mapSet s2.requesterCursor rId (some now) }
        let s4 :=
          { s3 with
              streamEvents := mapSet s3.streamEvents sId
                (some (events.filter
                  (fun e => decide (now - DELETE_EVENTS_AGE < e.timestamp)))) }
        (.json (newEvents.map (fun e => (e.type, e.data))) none, s4)

/-- Characterization of a non-first poll when the upstream handle is cached
and the buffer container exists: the response holds exactly the buffered
events newer than the cursor (computed from the buffer as it was *before*
any eviction), the cursor advances to `now`, and the buffer is then swept of
events outside the retention window. -/
theorem pollEvents_registered (s : RelayState) (sId rId : String)
    (out : ConstructResult) (now : Int) (w : Wrapper) (evs : List Event) (c : Int)
    (hs : sId ≠ "") (hr : rId ≠ "")
    (hw : s.wrapperMap sId = some w)
    (hbuf : s.streamEvents sId = some evs)
    (hcur : s.requesterCursor rId = some c) (hc : c ≠ 0) :
    pollEvents s (some sId) (some rId) out now =
      (.json ((evs.filter (fun e => decide (c < e.timestamp))).map
          (fun e => (e.type, e.data))) none,
        { s with
            requesterCursor := mapSet s.requesterCursor rId (some now)
            streamEvents := mapSet s.streamEvents sId
              (some (evs.filter
                (fun e => decide (now - DELETE_EVENTS_AGE < e.timestamp)))) }) := by
  simp [pollEvents, getOrCreateTiktokConnectionWrapper, hw, hbuf, hcur, hs, hr, hc]

/-- **C4.** A requester polling for the first time (no cursor registered)
receives zero events and the registration message, whatever is already
buffered for the polled streamer, and its cursor baseline is set to the
current time. -/
theorem first_poll_empty_baseline (s : RelayState) (sId rId : String)
    (out : ConstructResult) (now : Int) (w : Wrapper)
    (hs : sId ≠ "") (hr : rId ≠ "")
    (hw : s.wrapperMap sId = some w)
    (hcur : (s.requesterCursor rId).getD 0 = 0) :
    (pollEvents s (some sId) (some rId) out now).1 =
      .json [] (some registeredMessage)
    ∧ (pollEvents s (some sId) (some rId) out now).2.requesterCursor rId =
      some now := by
  cases hb : s.streamEvents sId <;>
    simp [pollEvents, getOrCreateTiktokConnectionWrapper, hw, hb, hcur, hs, hr, mapSet]

/-- State for the `first_poll_empty_baseline` witness: streamer `"s"` has a
cached handle and two already-buffered events; requester `"r"` is unknown. -/
def freshRequesterState : RelayState :=
  { initialRelayState with
      wrapperMap := mapSet initialRelayState.wrapperMap "s" (some ⟨"s", pullOptions, 0⟩)
      streamEvents := mapSet initialRelayState.streamEvents "s"
        (some [⟨"chat", 5, .chat "old" "en" ⟨"u1", "u1", "u1", ""⟩⟩,
               ⟨"like", 9, .like 1 7 ⟨"u2", "u2", "u2", ""⟩⟩]) }

/-- Witness for `first_poll_empty_baseline`: despite two buffered events,
requester `"r"`'s first poll returns none of them. -/
theorem first_poll_empty_baseline_witness :
    ("s" : String) ≠ "" ∧ ("r" : String) ≠ ""
    ∧ freshRequesterState.wrapperMap "s" = some ⟨"s", pullOptions, 0⟩
    ∧ (freshRequesterState.requesterCursor "r").getD 0 = 0
    ∧ ((pollEvents freshRequesterState (some "s") (some "r") (.ok false) 100).1 =
        .json [] (some registeredMessage)
      ∧ (pollEvents freshRequesterState (some "s") (some "r") (.ok false) 100).2.requesterCursor "r" =
        some 100) :=
  ⟨by decide, by decide, rfl, rfl,
    first_poll_empty_baseline freshRequesterState "s" "r" (.ok false) 100
      ⟨"s", pullOptions, 0⟩ (by decide) (by decide) rfl rfl⟩

/-- State for the C3 counterexample: a handle is cached for `"s"`, one chat
event with timestamp `2` is buffered, and requester `"r"` last polled at
time `1`. -/
def stalePollState : RelayState :=
  { initialRelayState with
      wrapperMap := mapSet initialRelayState.wrapperMap "s" (some ⟨"s", pullOptions, 0⟩)
      streamEvents := mapSet initialRelayState.streamEvents "s"
        (some [⟨"chat", 2, .chat "hi" "en" ⟨"u", "u", "u", ""⟩⟩])
      requesterCursor := mapSet initialRelayState.requesterCursor "r" (some 1) }

/-- **C3, counterexample.** A poll at time `1800003` — with the single
buffered event dating from time `2`, strictly older than the 30-minute
retention window at query time — still returns that event: the eviction
sweep runs only after the result is computed, so the result of a query *can*
contain an event older than the retention window when no query occurred
during the window. -/
theorem poll_returns_stale_event_counterexample :
    stalePollState.streamEvents "s" =
      some [⟨"chat", 2, .chat "hi" "en" ⟨"u", "u", "u", ""⟩⟩]
    ∧ (pollEvents stalePollState (some "s") (some "r") (.ok false) 1800003).1 =
      .json [("chat", .chat "hi" "en" ⟨"u", "u", "u", ""⟩)] none
    ∧ (2 : Int) < 1800003 - DELETE_EVENTS_AGE := by
  refine ⟨rfl, ?_, by decide⟩
  simp [pollEvents, getOrCreateTiktokConnectionWrapper, stalePollState,
    initialRelayState, mapSet, DELETE_EVENTS_AGE]

/-- **C3, amended.** Every non-first poll sweeps the streamer's buffer of
events older than the 30-minute retention window, measured against current
time — but only *after* computing its result: the returned sequence is the
pre-sweep buffer filtered by the requester's cursor alone, and so may still
contain events older than the retention window (when the cursor is older
than the window and no intervening query swept them). -/
theorem poll_sweeps_after_result (s : RelayState) (sId rId : String)
    (out : ConstructResult) (now : Int) (w : Wrapper) (evs : List Event) (c : Int)
    (hs : sId ≠ "") (hr : rId ≠ "")
    (hw : s.wrapperMap sId = some w)
    (hbuf : s.streamEvents sId = some evs)
    (hcur : s.requesterCursor rId = some c) (hc : c ≠ 0) :
    (pollEvents s (some sId) (some rId) out now).2.streamEvents sId =
      some (evs.filter (fun e => decide (now - DELETE_EVENTS_AGE < e.timestamp)))
    ∧ (pollEvents s (some sId) (some rId) out now).1 =
      .json ((evs.filter (fun e => decide (c < e.timestamp))).map
        (fun e => (e.type, e.data))) none := by
  rw [pollEvents_registered s sId rId out now w evs c hs hr hw hbuf hcur hc]
  simp [mapSet]

/-- Witness for `poll_sweeps_after_result` on the C3 counterexample state:
the buffer is left empty by the sweep while the stale event is returned. -/
theorem poll_sweeps_after_result_witness :
    ("s" : String) ≠ "" ∧ ("r" : String) ≠ ""
    ∧ stalePollState.wrapperMap "s" = some ⟨"s", pullOptions, 0⟩
    ∧ stalePollState.streamEvents "s" =
      some [⟨"chat", 2, .chat "hi" "en" ⟨"u", "u", "u", ""⟩⟩]
    ∧ stalePollState.requesterCursor "r" = some 1 ∧ (1 : Int) ≠ 0
    ∧ ((pollEvents stalePollState (some "s") (some "r") (.ok false) 1800003).2.streamEvents "s" =
        some (([⟨"chat", 2, .chat "hi" "en" ⟨"u", "u", "u", ""⟩⟩] : List Event).filter
          (fun e => decide (1800003 - DELETE_EVENTS_AGE < e.timestamp)))
      ∧ (pollEvents stalePollState (some "s") (some "r") (.ok false) 1800003).1 =
        .json ((([⟨"chat", 2, .chat "hi" "en" ⟨"u", "u", "u", ""⟩⟩] : List Event).filter
          (fun e => decide ((1 : Int) < e.timestamp))).map
          (fun e => (e.type, e.data))) none) :=
  ⟨by decide, by decide, rfl, rfl, rfl, by decide,
    poll_sweeps_after_result stalePollState "s" "r" (.ok false) 1800003
      ⟨"s", pullOptions, 0⟩ [⟨"chat", 2, .chat "hi" "en" ⟨"u", "u", "u", ""⟩⟩] 1
      (by decide) (by decide) rfl rfl rfl (by decide)⟩

/-- **C5.** The poll cursor advances to the current time after every poll
regardless of result size: with a registered requester and no upstream event
newer than its cursor, two successive polls both return an empty events
list; an event that then arrives between two consecutive polls is returned
by exactly one of them (the next poll returns it, the poll after that does
not).  The intermediate states and results are named by equations so that
each step of the scenario is explicit. -/
theorem poll_cursor_advance_exactly_once
    (s s₁ s₂ sE s₃ s₄ : RelayState) (r₁ r₂ r₃ r₄ : PollResult)
    (sId rId : String) (w : Wrapper) (evs : List Event) (chatData : RawData)
    (c now₁ now₂ te now₃ now₄ : Int) (out : ConstructResult)
    (hs : sId ≠ "") (hr : rId ≠ "")
    (hw : s.wrapperMap sId = some w)
    (hbuf : s.streamEvents sId = some evs)
    (hcur : s.requesterCursor rId = some c)
    (hc : 0 < c)
    (hold : ∀ e ∈ evs, e.timestamp ≤ c)
    (h1 : c ≤ now₁) (h2 : now₁ ≤ now₂) (h3 : now₂ < te) (h4 : te ≤ now₃)
    (h5 : now₃ ≤ now₄)
    (hp₁ : pollEvents s (some sId) (some rId) out now₁ = (r₁, s₁))
    (hp₂ : pollEvents s₁ (some sId) (some rId) out now₂ = (r₂, s₂))
    (hE : (handleUpstreamEvent s₂ sId "chat" chatData te).1 = sE)
    (hp₃ : pollEvents sE (some sId) (some rId) out now₃ = (r₃, s₃))
    (hp₄ : pollEvents s₃ (some sId) (some rId) out now₄ = (r₄, s₄)) :
    r₁ = .json [] none ∧ s₁.requesterCursor rId = some now₁
    ∧ r₂ = .json [] none ∧ s₂.requesterCursor rId = some now₂
    ∧ r₃ = .json [("chat",
        .chat chatData.comment chatData.contentLanguage (userBaseData chatData))] none
    ∧ s₃.requesterCursor rId = some now₃
    ∧ r₄ = .json [] none ∧ s₄.requesterCursor rId = some now₄ := by
  -- step 1: first poll, empty result, cursor to now₁
  have e₁ := pollEvents_registered s sId rId out now₁ w evs c hs hr hw hbuf hcur
    (by omega)
  injection (hp₁.symm.trans e₁) with er₁ es₁
  have hnil₁ : evs.filter (fun e => decide (c < e.timestamp)) = [] := by
    simp only [List.filter_eq_nil_iff, decide_eq_true_eq, not_lt]
    exact hold
  have f₁w : s₁.wrapperMap sId = some w := by rw [es₁]; exact hw
  have f₁b : s₁.streamEvents sId =
      some (evs.filter (fun e => decide (now₁ - DELETE_EVENTS_AGE < e.timestamp))) := by
    simp [es₁, mapSet]
  have f₁c : s₁.requesterCursor rId = some now₁ := by simp [es₁, mapSet]
  have hold₁ : ∀ e ∈ evs.filter
      (fun e => decide (now₁ - DELETE_EVENTS_AGE < e.timestamp)), e.timestamp ≤ c :=
    fun e he => hold e (List.mem_filter.mp he).1
  -- step 2: second poll, still empty, cursor to now₂
  have e₂ := pollEvents_registered s₁ sId rId out now₂ w _ now₁ hs hr f₁w f₁b f₁c
    (by omega)
  injection (hp₂.symm.trans e₂) with er₂ es₂
  have hnil₂ : (evs.filter
      (fun e => decide (now₁ - DELETE_EVENTS_AGE < e.timestamp))).filter
      (fun e => decide (now₁ < e.timestamp)) = [] := by
    simp only [List.filter_eq_nil_iff, decide_eq_true_eq, not_lt]
    intro e he
    exact le_trans (hold₁ e he) h1
  have f₂w : s₂.wrapperMap sId = some w := by rw [es₂]; exact f₁w
  have f₂b : s₂.streamEvents sId =
      some ((evs.filter (fun e => decide (now₁ - DELETE_EVENTS_AGE < e.timestamp))).filter
        (fun e => decide (now₂ - DELETE_EVENTS_AGE < e.timestamp))) := by
    simp [es₂, mapSet, f₁b]
  have f₂c : s₂.requesterCursor rId = some now₂ := by simp [es₂, mapSet]
  have hold₂ : ∀ e ∈ (evs.filter
      (fun e => decide (now₁ - DELETE_EVENTS_AGE < e.timestamp))).filter
      (fun e => decide (now₂ - DELETE_EVENTS_AGE < e.timestamp)), e.timestamp ≤ c :=
    fun e he => hold₁ e (List.mem_filter.mp he).1
  -- the upstream chat event arrives at time te
  have hspec := handleUpstreamEvent_spec s₂ sId "chat" chatData te
  have ht : transformEvent "chat" chatData te =
      ⟨"chat", te, .chat chatData.comment chatData.contentLanguage (userBaseData chatData)⟩ := rfl
  have fEw : sE.wrapperMap sId = some w := by
    rw [← hE, hspec.2.2.2.1]; exact f₂w
  have fEb : sE.streamEvents sId =
      some (((evs.filter (fun e => decide (now₁ - DELETE_EVENTS_AGE < e.timestamp))).filter
        (fun e => decide (now₂ - DELETE_EVENTS_AGE < e.timestamp))) ++
        [transformEvent "chat" chatData te]) := by
    rw [← hE, hspec.1, f₂b]
    rfl
  have fEc : sE.requesterCursor rId = some now₂ := by
    rw [← hE, hspec.2.1]; exact f₂c
  -- step 3: the third poll returns the new event and only it
  have e₃ := pollEvents_registered sE sId rId out now₃ w _ now₂ hs hr fEw fEb fEc
    (by omega)
  injection (hp₃.symm.trans e₃) with er₃ es₃
  have hone : (((evs.filter (fun e => decide (now₁ - DELETE_EVENTS_AGE < e.timestamp))).filter
      (fun e => decide (now₂ - DELETE_EVENTS_AGE < e.timestamp))) ++
      [transformEvent "chat" chatData te]).filter
      (fun e => decide (now₂ < e.timestamp)) = [transformEvent "chat" chatData te] := by
    rw [List.filter_append]
    have left : ((evs.filter (fun e => decide (now₁ - DELETE_EVENTS_AGE < e.timestamp))).filter
        (fun e => decide (now₂ - DELETE_EVENTS_AGE < e.timestamp))).filter
        (fun e => decide (now₂ < e.timestamp)) = [] := by
      simp only [List.filter_eq_nil_iff, decide_eq_true_eq, not_lt]
      intro e he
      exact le_trans (hold₂ e he) (le_trans h1 h2)
    rw [left, ht]
    simp [h3]
  have f₃w : s₃.wrapperMap sId = some w := by rw [es₃]; exact fEw
  have f₃b : s₃.streamEvents sId =
      some (((((evs.filter (fun e => decide (now₁ - DELETE_EVENTS_AGE < e.timestamp))).filter
        (fun e => decide (now₂ - DELETE_EVENTS_AGE < e.timestamp))) ++
        [transformEvent "chat" chatData te]).filter
        (fun e => decide (now₃ - DELETE_EVENTS_AGE < e.timestamp)))) := by
    simp [es₃, mapSet]
  have f₃c : s₃.requesterCursor rId = some now₃ := by simp [es₃, mapSet]
  -- step 4: the fourth poll no longer returns it
  have e₄ := pollEvents_registered s₃ sId rId out now₄ w _ now₃ hs hr f₃w f₃b f₃c
    (by omega)
  injection (hp₄.symm.trans e₄) with er₄ es₄
  have hnil₄ : (((((evs.filter (fun e => decide (now₁ - DELETE_EVENTS_AGE < e.timestamp))).filter
      (fun e => decide (now₂ - DELETE_EVENTS_AGE < e.timestamp))) ++
      [transformEvent "chat" chatData te]).filter
      (fun e => decide (now₃ - DELETE_EVENTS_AGE < e.timestamp)))).filter
      (fun e => decide (now₃ < e.timestamp)) = [] := by
    simp only [List.filter_eq_nil_iff, decide_eq_true_eq, not_lt]
    intro e he
    rcases List.mem_append.mp (List.mem_filter.mp he).1 with hl | hr2
    · exact le_trans (hold₂ e hl) (by omega)
    · rw [ht] at hr2
      simp only [List.mem_singleton] at hr2
      rw [hr2]
      exact h4
  refine ⟨?_, f₁c, ?_, f₂c, ?_, f₃c, ?_, by simp [es₄, mapSet]⟩
  · rw [er₁, hnil₁]; rfl
  · rw [er₂, hnil₂]; rfl
  · rw [er₃, hone, ht]; rfl
  · rw [er₄, hnil₄]; rfl

/-- Concrete scenario for the `poll_cursor_advance_exactly_once` witness:
one cached handle for `"s"`, one old buffered event at time `1`, requester
`"r"` registered with cursor `1`. -/
def c5State : RelayState :=
  { initialRelayState with
      wrapperMap := mapSet initialRelayState.wrapperMap "s" (some ⟨"s", pullOptions, 0⟩)
      streamEvents := mapSet initialRelayState.streamEvents "s"
        (some [⟨"like", 1, .like 1 1 ⟨"u", "u", "u", ""⟩⟩])
      requesterCursor := mapSet initialRelayState.requesterCursor "r" (some 1) }

/-- The chat payload arriving mid-scenario in the C5 witness. -/
def c5Chat : RawData := { comment := "yo", contentLanguage := "en" }

/-- First poll of the C5 witness scenario, at time 2. -/
def c5Poll₁ : PollResult × RelayState :=
  pollEvents c5State (some "s") (some "r") (.ok false) 2

/-- Second poll of the C5 witness scenario, at time 3. -/
def c5Poll₂ : PollResult × RelayState :=
  pollEvents c5Poll₁.2 (some "s") (some "r") (.ok false) 3

/-- State of the C5 witness scenario after the chat event fires at time 4. -/
def c5AfterChat : RelayState :=
  (handleUpstreamEvent c5Poll₂.2 "s" "chat" c5Chat 4).1

/-- Third poll of the C5 witness scenario, at time 5. -/
def c5Poll₃ : PollResult × RelayState :=
  pollEvents c5AfterChat (some "s") (some "r") (.ok false) 5

/-- Fourth poll of the C5 witness scenario, at time 6. -/
def c5Poll₄ : PollResult × RelayState :=
  pollEvents c5Poll₃.2 (some "s") (some "r") (.ok false) 6

/-- Witness for `poll_cursor_advance_exactly_once` on the concrete
scenario: two empty polls, then the chat event arriving between polls is
delivered by exactly the next poll, and the cursor advances every time. -/
theorem poll_cursor_advance_exactly_once_witness :
    c5Poll₁.1 = .json [] none ∧ c5Poll₁.2.requesterCursor "r" = some 2
    ∧ c5Poll₂.1 = .json [] none ∧ c5Poll₂.2.requesterCursor "r" = some 3
    ∧ c5Poll₃.1 = .json [("chat", .chat "yo" "en" (userBaseData c5Chat))] none
    ∧ c5Poll₃.2.requesterCursor "r" = some 5
    ∧ c5Poll₄.1 = .json [] none ∧ c5Poll₄.2.requesterCursor "r" = some 6 :=
  poll_cursor_advance_exactly_once c5State c5Poll₁.2 c5Poll₂.2 c5AfterChat
    c5Poll₃.2 c5Poll₄.2 c5Poll₁.1 c5Poll₂.1 c5Poll₃.1 c5Poll₄.1
    "s" "r" ⟨"s", pullOptions, 0⟩ [⟨"like", 1, .like 1 1 ⟨"u", "u", "u", ""⟩⟩]
    c5Chat 1 2 3 4 5 6 (.ok false)
    (by decide) (by decide) rfl rfl rfl (by decide) (by decide)
    (by decide) (by decide) (by decide) (by decide) (by decide)
    rfl rfl rfl rfl rfl

/-- **C10.** There is a single poll cursor per requester, shared across all
streamer identifiers: a non-first poll for streamer `sa` advances the one
cursor to its poll time `now₁` and leaves streamer `sb`'s buffer untouched,
and a later poll by the same requester for `sb` consults that cursor — its
result is exactly `sb`'s buffered events with timestamps strictly above
`now₁`, so events buffered for `sb` at or before the time of the poll on
`sa` are never returned to this requester. -/
theorem shared_cursor_across_streamers
    (s sA : RelayState) (rA : PollResult) (sa sb rId : String) (wa wb : Wrapper)
    (evsA evsB : List Event) (c now₁ now₂ : Int) (outA outB : ConstructResult)
    (hsa : sa ≠ "") (hsb : sb ≠ "") (hne : sb ≠ sa) (hr : rId ≠ "")
    (hwa : s.wrapperMap sa = some wa) (hwb : s.wrapperMap sb = some wb)
    (hba : s.streamEvents sa = some evsA) (hbb : s.streamEvents sb = some evsB)
    (hcur : s.requesterCursor rId = some c) (hc : 0 < c)
    (h1 : c ≤ now₁) (h2 : now₁ ≤ now₂)
    (hpA : pollEvents s (some sa) (some rId) outA now₁ = (rA, sA)) :
    sA.requesterCursor rId = some now₁
    ∧ sA.streamEvents sb = some evsB
    ∧ (pollEvents sA (some sb) (some rId) outB now₂).1 =
      .json ((evsB.filter (fun e => decide (now₁ < e.timestamp))).map
        (fun e => (e.type, e.data))) none := by
  have eA := pollEvents_registered s sa rId outA now₁ wa evsA c hsa hr hwa hba hcur
    (by omega)
  injection (hpA.symm.trans eA) with erA esA
  have fAc : sA.requesterCursor rId = some now₁ := by simp [esA, mapSet]
  have fAb : sA.streamEvents sb = some evsB := by simp [esA, mapSet, hne, hbb]
  have fAw : sA.wrapperMap sb = some wb := by rw [esA]; exact hwb
  have eB := pollEvents_registered sA sb rId outB now₂ wb evsB now₁ hsb hr fAw fAb fAc
    (by omega)
  exact ⟨fAc, fAb, by rw [eB]⟩

/-- Concrete scenario for the `shared_cursor_across_streamers` witness:
handles cached for `"a"` and `"b"`, an event for `"b"` at time `15`,
requester `"r"` registered at time `10`; the poll on `"a"` happens at
time `20`, the later poll on `"b"` at time `30`. -/
def c10State : RelayState :=
  { initialRelayState with
      wrapperMap := mapSet (mapSet initialRelayState.wrapperMap "a"
        (some ⟨"a", pullOptions, 0⟩)) "b" (some ⟨"b", pullOptions, 1⟩)
      streamEvents := mapSet (mapSet initialRelayState.streamEvents "a"
        (some [])) "b" (some [⟨"chat", 15, .chat "m" "en" ⟨"u", "u", "u", ""⟩⟩])
      requesterCursor := mapSet initialRelayState.requesterCursor "r" (some 10) }

/-- The poll on streamer `"a"` of the C10 witness scenario. -/
def c10PollA : PollResult × RelayState :=
  pollEvents c10State (some "a") (some "r") (.ok false) 20

/-- Witness for `shared_cursor_across_streamers`: after polling `"a"` at
time `20`, the later poll on `"b"` no longer returns `"b"`'s event from
time `15`, although this requester never received it. -/
theorem shared_cursor_across_streamers_witness :
    c10PollA.2.requesterCursor "r" = some 20
    ∧ c10PollA.2.streamEvents "b" =
      some [⟨"chat", 15, .chat "m" "en" ⟨"u", "u", "u", ""⟩⟩]
    ∧ (pollEvents c10PollA.2 (some "b") (some "r") (.ok false) 30).1 =
      .json ((([⟨"chat", 15, .chat "m" "en" ⟨"u", "u", "u", ""⟩⟩] : List Event).filter
        (fun e => decide ((20 : Int) < e.timestamp))).map
        (fun e => (e.type, e.data))) none :=
  shared_cursor_across_streamers c10State c10PollA.2 c10PollA.1 "a" "b" "r"
    ⟨"a", pullOptions, 0⟩ ⟨"b", pullOptions, 1⟩
    [] [⟨"chat", 15, .chat "m" "en" ⟨"u", "u", "u", ""⟩⟩] 10 20 30
    (.ok false) (.ok false)
    (by decide) (by decide) (by decide) (by decide)
    rfl rfl rfl rfl rfl (by decide) (by decide) (by decide) rfl

/-- The admission-rejection message (server.js line 168). -/
def rateLimitMessage : String :=
  "You have opened too many connections or made too many connection requests. Please reduce the number of connections/requests or host your own server instance. The connections are limited to avoid that the server IP gets blocked by TokTok."

/-- Option sanitization performed by `setStreamerId` before acquisition
(server.js lines 152-164): when the caller passed an object, its
`requestOptions` and `websocketOptions` properties are deleted, otherwise a
fresh empty object is used; then, when `process.env.SESSIONID` is set (and
non-empty — JS truthiness), it overwrites `sessionId`. -/
def sanitizeOptions (options : Option Options) (env : Env) : Options :=
  let o : Options :=
    match options with
    | some o => { o with requestOptions := none, websocketOptions := none }
    | none => { }
  if env.sessionId.getD "" = "" then o else { o with sessionId := env.sessionId }

/-- The `setUniqueId` / `setstreamerId` socket handler (server.js
lines 150-191).  Sanitizes the caller options, refuses when the rate
limiter is enabled and reports the client blocked, otherwise ensures the
streamer's socket list exists (lines 172-178 — the list is created *before*
acquisition, so it persists even if acquisition fails), acquires the
upstream handle, and on success pushes the socket onto the list (line 184,
with no membership check and no removal from any other list) and records
the streamer in the socket-to-streamer slot (line 185).  On failure the
error string is the emitted `tiktokDisconnected` payload. -/
def setStreamerId (s : RelayState) (socket : Nat) (streamerId : String)
    (options : Option Options) (env : Env) (blocked : Bool)
    (outcome : ConstructResult) : RelayState × Option String :=
  let opts := sanitizeOptions options env
  if env.enableRateLimit && blocked then
    (s, some rateLimitMessage)
  else
    let socketList := (s.socketsMap streamerId).getD []
    let s1 := { s with socketsMap := mapSet s.socketsMap streamerId (some socketList) }
    let res := getOrCreateTiktokConnectionWrapper s1 streamerId opts outcome
    match res.1.1 with
    | some _ =>
      ({ res.2 with
          socketsMap := mapSet res.2.socketsMap streamerId (some (socketList ++ [socket]))
          socketStreamer := some streamerId }, none)
    | none => (res.2, res.1.2)

/-- The socket `disconnect` handler (server.js lines 196-209): reads the
(shared) socket-to-streamer slot; when it holds a non-empty streamer
identifier, removes the first occurrence of the socket from that streamer's
socket list (`indexOf` + `splice(i, 1)`, a no-op when absent) and clears
the slot.  The list lookup is `getD []`: in every state this handler
reaches, the recorded streamer's list exists. -/
def socketDisconnect (s : RelayState) (sock : Nat) : RelayState :=
  match s.socketStreamer with
  | none => s
  | some streamerId =>
    if streamerId = "" then s
    else
      let socketList := (s.socketsMap streamerId).getD []
      { s with
          socketsMap := mapSet s.socketsMap streamerId (some (socketList.erase sock))
          socketStreamer := none }

/-- The environment with no session credential and no rate limit. -/
def defaultEnv : Env := { }

/-- State for the C7 counterexample: handles cached for streamers `"a"`
and `"b"`, no subscriber joined yet. -/
def c7State : RelayState :=
  { initialRelayState with
      wrapperMap := mapSet (mapSet initialRelayState.wrapperMap "a"
        (some ⟨"a", { }, 0⟩)) "b" (some ⟨"b", { }, 1⟩) }

/-- **C7, counterexample.** Subscriber membership is neither exclusive nor
idempotent: after socket `7` subscribes to `"a"` and then to `"b"`, it is a
member of *both* streamers' subscriber lists; and subscribing to `"a"`
twice in a row leaves it in `"a"`'s list twice. -/
theorem join_not_exclusive_counterexample :
    (setStreamerId (setStreamerId c7State 7 "a" none defaultEnv false (.ok false)).1
        7 "b" none defaultEnv false (.ok false)).1.socketsMap "a" = some [7]
    ∧ (setStreamerId (setStreamerId c7State 7 "a" none defaultEnv false (.ok false)).1
        7 "b" none defaultEnv false (.ok false)).1.socketsMap "b" = some [7]
    ∧ (setStreamerId (setStreamerId c7State 7 "a" none defaultEnv false (.ok false)).1
        7 "a" none defaultEnv false (.ok false)).1.socketsMap "a" = some [7, 7] := by
  refine ⟨?_, ?_, ?_⟩ <;>
    simp [setStreamerId, getOrCreateTiktokConnectionWrapper, sanitizeOptions,
      c7State, initialRelayState, defaultEnv, mapSet]

/-- **C7, amended.** A successful subscription *appends* the subscriber to
the target streamer's list — without removing it from any other streamer's
list and without a membership check — and records the target streamer in
the (shared) socket-to-streamer slot; a subsequent disconnect removes one
occurrence of the subscriber from the recorded streamer's list only and
clears the slot. -/
theorem join_appends_disconnect_removes
    (s : RelayState) (sock : Nat) (id other : String) (opts : Option Options)
    (env : Env) (blocked : Bool) (out : ConstructResult) (w : Wrapper)
    (hrl : env.enableRateLimit = false)
    (hw : s.wrapperMap id = some w) (hid : id ≠ "") (hother : other ≠ id) :
    (setStreamerId s sock id opts env blocked out).2 = none
    ∧ (setStreamerId s sock id opts env blocked out).1.socketsMap id =
      some ((s.socketsMap id).getD [] ++ [sock])
    ∧ (setStreamerId s sock id opts env blocked out).1.socketsMap other =
      s.socketsMap other
    ∧ (setStreamerId s sock id opts env blocked out).1.socketStreamer = some id
    ∧ (socketDisconnect (setStreamerId s sock id opts env blocked out).1 sock).socketsMap id =
      some (((s.socketsMap id).getD [] ++ [sock]).erase sock)
    ∧ (socketDisconnect (setStreamerId s sock id opts env blocked out).1 sock).socketStreamer =
      none := by
  simp [setStreamerId, getOrCreateTiktokConnectionWrapper, socketDisconnect,
    hw, hrl, hid, hother, mapSet]

/-- Witness for `join_appends_disconnect_removes`: socket `7` joins `"a"`
in the `c7State` scenario and then disconnects. -/
theorem join_appends_disconnect_removes_witness :
    defaultEnv.enableRateLimit = false
    ∧ c7State.wrapperMap "a" = some ⟨"a", { }, 0⟩
    ∧ ("a" : String) ≠ "" ∧ ("b" : String) ≠ "a"
    ∧ ((setStreamerId c7State 7 "a" none defaultEnv false (.ok false)).2 = none
      ∧ (setStreamerId c7State 7 "a" none defaultEnv false (.ok false)).1.socketsMap "a" =
        some ((c7State.socketsMap "a").getD [] ++ [7])
      ∧ (setStreamerId c7State 7 "a" none defaultEnv false (.ok false)).1.socketsMap "b" =
        c7State.socketsMap "b"
      ∧ (setStreamerId c7State 7 "a" none defaultEnv false (.ok false)).1.socketStreamer =
        some "a"
      ∧ (socketDisconnect (setStreamerId c7State 7 "a" none defaultEnv false (.ok false)).1
          7).socketsMap "a" =
        some (((c7State.socketsMap "a").getD [] ++ [7]).erase 7)
      ∧ (socketDisconnect (setStreamerId c7State 7 "a" none defaultEnv false (.ok false)).1
          7).socketStreamer = none) :=
  ⟨rfl, rfl, by decide, by decide,
    join_appends_disconnect_removes c7State 7 "a" "b" none defaultEnv false
      (.ok false) ⟨"a", { }, 0⟩ rfl rfl (by decide) (by decide)⟩

/-- **C8, counterexample.** An *asynchronous* connect failure does not
prevent caching: `.ok true` models a construction whose `connect()` call
returned normally but whose connection later fails asynchronously —
`server.js` has already cached the wrapper on line 119 by then and never
removes map entries, so the handle stays cached and the next acquisition
returns it instead of re-creating from scratch. -/
theorem async_failure_leaves_handle_cached_counterexample :
    (getOrCreateTiktokConnectionWrapper initialRelayState "x" pullOptions (.ok true)).1 =
      (some ⟨"x", pullOptions, 0⟩, none)
    ∧ (getOrCreateTiktokConnectionWrapper initialRelayState "x" pullOptions
        (.ok true)).2.wrapperMap "x" = some ⟨"x", pullOptions, 0⟩
    ∧ getOrCreateTiktokConnectionWrapper
        (getOrCreateTiktokConnectionWrapper initialRelayState "x" pullOptions (.ok true)).2
        "x" pullOptions (.ok true) =
      ((some ⟨"x", pullOptions, 0⟩, none),
        (getOrCreateTiktokConnectionWrapper initialRelayState "x" pullOptions (.ok true)).2) :=
  ⟨rfl, rfl, rfl⟩

/-- **C8, amended.** A *synchronous* construction/connect failure is
returned as a value (never thrown further): nothing is cached — the state
is unchanged, so the next acquisition attempt re-creates the handle from
scratch — and the pull endpoint surfaces the failure as a response with an
empty events list and the error text in the `message` field, with no other
state effect.  (Asynchronous connect failures, by contrast, leave the
already-cached handle in place; see the counterexample.) -/
theorem sync_failure_not_cached
    (s : RelayState) (id rId err : String) (o o₂ : Options) (b : Bool) (now : Int)
    (h : s.wrapperMap id = none) (hid : id ≠ "") (hr : rId ≠ "") (herr : err ≠ "") :
    getOrCreateTiktokConnectionWrapper s id o (.thrown err) = ((none, some err), s)
    ∧ (getOrCreateTiktokConnectionWrapper s id o₂ (.ok b)).1.1 =
      some ⟨id, o₂, s.nextHandleId⟩
    ∧ pollEvents s (some id) (some rId) (.thrown err) now =
      (.json [] (some err), s) := by
  refine ⟨?_, ?_, ?_⟩ <;>
    simp [getOrCreateTiktokConnectionWrapper, pollEvents, h, hid, hr, herr]

/-- Witness for `sync_failure_not_cached` at the initial state. -/
theorem sync_failure_not_cached_witness :
    initialRelayState.wrapperMap "x" = none
    ∧ ("x" : String) ≠ "" ∧ ("r" : String) ≠ "" ∧ ("boom" : String) ≠ ""
    ∧ (getOrCreateTiktokConnectionWrapper initialRelayState "x" pullOptions
        (.thrown "boom") = ((none, some "boom"), initialRelayState)
      ∧ (getOrCreateTiktokConnectionWrapper initialRelayState "x" pullOptions
          (.ok false)).1.1 = some ⟨"x", pullOptions, 0⟩
      ∧ pollEvents initialRelayState (some "x") (some "r") (.thrown "boom") 5 =
        (.json [] (some "boom"), initialRelayState)) :=
  ⟨rfl, by decide, by decide, by decide,
    sync_failure_not_cached initialRelayState "x" "r" "boom" pullOptions
      pullOptions false 5 rfl (by decide) (by decide) (by decide)⟩

/-- **C9.** On both acquisition paths that can create a new upstream
connection, the caller cannot smuggle transport overrides or a credential
to the constructor: the push path constructs the handle with the sanitized
options — whose `requestOptions` and `websocketOptions` are stripped and
whose `sessionId` is the server-wide credential whenever one is configured,
overriding any caller-supplied credential — and the pull path constructs it
with the fixed server-built `pullOptions`, which carry no caller-supplied
field at all. -/
theorem acquisition_options_sanitized
    (s : RelayState) (sock : Nat) (id rId sid : String) (callerOpts : Option Options)
    (env : Env) (blocked : Bool) (b : Bool) (now : Int)
    (habs : s.wrapperMap id = none)
    (hsid : env.sessionId = some sid) (hsid' : sid ≠ "")
    (hrl : env.enableRateLimit = false)
    (hid : id ≠ "") (hr : rId ≠ "") :
    (setStreamerId s sock id callerOpts env blocked (.ok b)).1.wrapperMap id =
      some ⟨id, sanitizeOptions callerOpts env, s.nextHandleId⟩
    ∧ (sanitizeOptions callerOpts env).requestOptions = none
    ∧ (sanitizeOptions callerOpts env).websocketOptions = none
    ∧ (sanitizeOptions callerOpts env).sessionId = some sid
    ∧ (pollEvents s (some id) (some rId) (.ok b) now).2.wrapperMap id =
      some ⟨id, pullOptions, s.nextHandleId⟩
    ∧ pullOptions.requestOptions = none
    ∧ pullOptions.websocketOptions = none := by
  refine ⟨?_, ?_, ?_, ?_, ?_, rfl, rfl⟩
  · simp [setStreamerId, getOrCreateTiktokConnectionWrapper, habs, hrl, mapSet]
  · cases callerOpts <;> simp [sanitizeOptions, hsid, hsid']
  · cases callerOpts <;> simp [sanitizeOptions, hsid, hsid']
  · cases callerOpts <;> simp [sanitizeOptions, hsid, hsid']
  · cases hb : s.streamEvents id <;>
      by_cases hcv : ((s.requesterCursor rId).getD 0) = 0 <;>
        simp [pollEvents, getOrCreateTiktokConnectionWrapper, habs, hid, hr,
          hb, hcv, mapSet]

/-- The environment of the `acquisition_options_sanitized` witness: a
server-wide session credential is configured. -/
def sessionEnv : Env := { sessionId := some "serverSession" }

/-- The hostile caller options of the `acquisition_options_sanitized`
witness: transport overrides and a caller credential are all supplied. -/
def hostileOpts : Options :=
  { requestOptions := some "proxy", websocketOptions := some "proxy",
    sessionId := some "attacker", extra := [("customKey", "v")] }

/-- Witness for `acquisition_options_sanitized`: even hostile caller
options reach the constructor stripped and with the server credential. -/
theorem acquisition_options_sanitized_witness :
    initialRelayState.wrapperMap "x" = none
    ∧ sessionEnv.sessionId = some "serverSession"
    ∧ ("serverSession" : String) ≠ ""
    ∧ sessionEnv.enableRateLimit = false
    ∧ ("x" : String) ≠ "" ∧ ("r" : String) ≠ ""
    ∧ ((setStreamerId initialRelayState 7 "x" (some hostileOpts) sessionEnv false
          (.ok false)).1.wrapperMap "x" =
        some ⟨"x", sanitizeOptions (some hostileOpts) sessionEnv, 0⟩
      ∧ (sanitizeOptions (some hostileOpts) sessionEnv).requestOptions = none
      ∧ (sanitizeOptions (some hostileOpts) sessionEnv).websocketOptions = none
      ∧ (sanitizeOptions (some hostileOpts) sessionEnv).sessionId = some "serverSession"
      ∧ (pollEvents initialRelayState (some "x") (some "r") (.ok false) 9).2.wrapperMap "x" =
        some ⟨"x", pullOptions, 0⟩
      ∧ pullOptions.requestOptions = none
      ∧ pullOptions.websocketOptions = none) :=
  ⟨rfl, rfl, by decide, rfl, by decide, by decide,
    acquisition_options_sanitized initialRelayState 7 "x" "r" "serverSession"
      (some hostileOpts) sessionEnv false false 9 rfl rfl (by decide) rfl
      (by decide) (by decide)⟩
